import Mathlib

/-!
Verification development for the radiation-detection spider bot
(`radiation_bot.py`).  The Python code is shallowly embedded:

* `RadiationSensor` (pulse counting and CPM estimation) is modelled over `ℚ`
  (exact embedding of the float arithmetic, fully executable);
* `PositionTracker` (dead reckoning) is modelled over `ℝ`, since it uses
  trigonometry; the Python float modulo `% 360` is `pymod360`;
* the movement/sampling scripts of `explore_grid` and
  `find_radiation_source` are embedded as the exact lists of primitive
  operations the Python loops emit, replayed through the tracker.
-/

namespace RadBot

/-! ## RadiationSensor (radiation_bot.py lines 23-92) -/

/-- Mutable state of `RadiationSensor`: `pulse_count`, `start_time`,
`last_reading` and `pulse_buffer` (timestamps as exact rationals). -/
structure SensorState where
  pulse_count : ℕ
  start_time : ℚ
  last_reading : ℚ
  pulse_buffer : List ℚ
  deriving DecidableEq

/-- `self.reading_interval = 5.0` from `RadiationSensor.__init__`. -/
def reading_interval : ℚ := 5

/-- `RadiationSensor.__init__` at construction time `t0`:
`pulse_count = 0`, `start_time = t0`, `last_reading = 0`, empty buffer. -/
def init_sensor (t0 : ℚ) : SensorState :=
  { pulse_count := 0, start_time := t0, last_reading := 0, pulse_buffer := [] }

/-- `RadiationSensor._pulse_callback`, with the `time.time()` result made an
explicit argument `t`: increments `pulse_count`, appends `t` to
`pulse_buffer`, then keeps only the entries strictly newer than `t - 60`. -/
def pulse_callback (s : SensorState) (t : ℚ) : SensorState :=
  { s with
    pulse_count := s.pulse_count + 1
    pulse_buffer := (s.pulse_buffer ++ [t]).filter (fun u => t - 60 < u) }

/-- `RadiationSensor.get_reading`, with the `time.time()` result made an
explicit argument `t`.  Returns the reading together with the new state.
When `elapsed = t - start_time` has reached `reading_interval`, the reading
is recomputed as the average of the buffer length and the short-term CPM,
`pulse_count` is reset and `start_time` moved to `t`; otherwise the stale
`last_reading` is returned and the state is untouched. -/
def get_reading (s : SensorState) (t : ℚ) : ℚ × SensorState :=
  let elapsed := t - s.start_time
  if reading_interval ≤ elapsed then
    let cpm : ℚ := s.pulse_buffer.length
    let lr : ℚ :=
      if 0 < elapsed then (cpm + (s.pulse_count : ℚ) / elapsed * 60) / 2
      else cpm
    (lr, { s with last_reading := lr, pulse_count := 0, start_time := t })
  else
    (s.last_reading, s)

/-- `RadiationSensor.convert_to_microsieverts`: zero for non-positive CPM,
otherwise `((cpm / 60) / 65) * 0.036 * 3600` (J305 tube sensitivity 65). -/
def convert_to_microsieverts (cpm : ℚ) : ℚ :=
  if cpm ≤ 0 then 0 else cpm / 60 / 65 * 0.036 * 3600

/-- Sensor states reachable from construction by any interleaving of pulse
callbacks and readings. -/
inductive Reachable : SensorState → Prop
  | init (t0 : ℚ) : Reachable (init_sensor t0)
  | pulse {s : SensorState} (t : ℚ) : Reachable s → Reachable (pulse_callback s t)
  | reading {s : SensorState} (t : ℚ) : Reachable s → Reachable (get_reading s t).2

/-! ## PositionTracker (radiation_bot.py lines 102-127) -/

/-- Python float `%` with the positive modulus `360`, on the real
embedding: `a % 360 = a - 360 * floor (a / 360)`. -/
noncomputable def pymod360 (a : ℝ) : ℝ := a - 360 * ⌊a / 360⌋

/-- The trackers pose: `x`, `y` in cm and `heading` in degrees. -/
structure Pose where
  x : ℝ
  y : ℝ
  heading : ℝ

/-- The closed set of action strings `update_position` distinguishes.
`other` stands for any action matching none of the four substrings
(for it the Python code only re-normalizes the heading). -/
inductive Cmd where
  | forward
  | backward
  | turnLeft
  | turnRight
  | other

/-- `self.step_size = 10` (cm per step). -/
def step_size : ℝ := 10

/-- `math.radians`. -/
noncomputable def radians (d : ℝ) : ℝ := d * Real.pi / 180

/-- `PositionTracker.update_position`: moves by `steps * step_size` along
the heading for forward/backward, turns by `45 * steps` degrees for the
turn actions, and always ends with `heading = heading % 360`. -/
noncomputable def update_position (p : Pose) (c : Cmd) (steps : ℕ) : Pose :=
  let distance : ℝ := (steps : ℝ) * step_size
  match c with
  | .forward =>
      ⟨p.x + distance * Real.cos (radians p.heading),
       p.y + distance * Real.sin (radians p.heading),
       pymod360 p.heading⟩
  | .backward =>
      ⟨p.x - distance * Real.cos (radians p.heading),
       p.y - distance * Real.sin (radians p.heading),
       pymod360 p.heading⟩
  | .turnLeft => ⟨p.x, p.y, pymod360 (p.heading + 45 * (steps : ℝ))⟩
  | .turnRight => ⟨p.x, p.y, pymod360 (p.heading - 45 * (steps : ℝ))⟩
  | .other => ⟨p.x, p.y, pymod360 p.heading⟩

/-! ## Facts about pymod360 -/

lemma pymod360_eq_fract (a : ℝ) : pymod360 a = 360 * Int.fract (a / 360) := by
  unfold pymod360 Int.fract
  ring

lemma pymod360_nonneg (a : ℝ) : 0 ≤ pymod360 a := by
  rw [pymod360_eq_fract]
  exact mul_nonneg (by norm_num) (Int.fract_nonneg _)

lemma pymod360_lt_360 (a : ℝ) : pymod360 a < 360 := by
  rw [pymod360_eq_fract]
  have h := Int.fract_lt_one (a / 360)
  nlinarith

lemma pymod360_eq_self {a : ℝ} (h0 : 0 ≤ a) (h1 : a < 360) : pymod360 a = a := by
  unfold pymod360
  have hz : ⌊a / 360⌋ = 0 := by
    rw [Int.floor_eq_zero_iff]
    constructor
    · positivity
    · rw [div_lt_one (by norm_num)]; linarith
  rw [hz]
  norm_num

lemma pymod360_add_360 (a : ℝ) : pymod360 (a + 360) = pymod360 a := by
  unfold pymod360
  have h : (a + 360) / 360 = a / 360 + 1 := by ring
  rw [h, Int.floor_add_one]
  push_cast
  ring

lemma pymod360_zero : pymod360 (0 : ℝ) = 0 :=
  pymod360_eq_self le_rfl (by norm_num)

lemma pymod360_neg45 : pymod360 (-45 : ℝ) = 315 := by
  have h := pymod360_add_360 (-45 : ℝ)
  rw [show (-45 : ℝ) + 360 = 315 by norm_num] at h
  rw [← h, pymod360_eq_self] <;> norm_num

lemma pymod360_270 : pymod360 (270 : ℝ) = 270 :=
  pymod360_eq_self (by norm_num) (by norm_num)

lemma pymod360_315 : pymod360 (315 : ℝ) = 315 :=
  pymod360_eq_self (by norm_num) (by norm_num)

lemma pymod360_225 : pymod360 (225 : ℝ) = 225 :=
  pymod360_eq_self (by norm_num) (by norm_num)

lemma pymod360_180 : pymod360 (180 : ℝ) = 180 :=
  pymod360_eq_self (by norm_num) (by norm_num)

lemma pymod360_360 : pymod360 (360 : ℝ) = 0 := by
  have h := pymod360_add_360 (0 : ℝ)
  rw [show (0 : ℝ) + 360 = 360 by norm_num] at h
  rw [h, pymod360_zero]

/-! ## Movement and sampling scripts

`move_and_track(action, steps)` updates the tracker with `update_position`;
`collect_radiation_sample` records a sample at the trackers current pose.
The bodies of `explore_grid` and of the probing loop of
`find_radiation_source` are embedded as the exact sequence of these two
primitives that the Python control flow emits. -/

/-- A primitive operation of the control loop: a tracked movement or the
collection of one radiation sample at the current pose. -/
inductive Op where
  | move (c : Cmd) (steps : ℕ)
  | sample

/-- Replay a script through the tracker, returning the final pose. -/
noncomputable def runPose : Pose → List Op → Pose
  | p, [] => p
  | p, Op.move c n :: rest => runPose (update_position p c n) rest
  | p, Op.sample :: rest => runPose p rest

/-- The poses at which the samples of a script are collected, in order. -/
noncomputable def samplePoses : Pose → List Op → List Pose
  | _, [] => []
  | p, Op.move c n :: rest => samplePoses (update_position p c n) rest
  | p, Op.sample :: rest => p :: samplePoses p rest

/-- The literals of `directions = ['forward', 'turn right', 'turn right',
'turn right']` in `find_radiation_source`. -/
inductive Dir where
  | fwd
  | turnRight

/-- `find_radiation_source` line 247. -/
def directions : List Dir := [Dir.fwd, Dir.turnRight, Dir.turnRight, Dir.turnRight]

/-- Body of the `for direction in directions` loop of
`find_radiation_source` (lines 251-267): a `turn` entry only rotates right
one step and continues; the `forward` entry steps forward, collects the
probe sample, steps back and rotates right one step. -/
def dir_ops : Dir → List Op
  | Dir.turnRight => [Op.move Cmd.turnRight 1]
  | Dir.fwd =>
      [Op.move Cmd.forward 1, Op.sample, Op.move Cmd.backward 1,
       Op.move Cmd.turnRight 1]

/-- The whole probing phase of one iteration of `find_radiation_source`. -/
def probe_phase : List Op := (directions.map dir_ops).flatten

/-- Row-end maneuver of `explore_grid` (lines 224-232): even rows turn
right, odd rows turn left, both with a single 1-step turn on each side of
the forward move. -/
def row_end_ops (row d : ℕ) : List Op :=
  if row % 2 = 0 then
    [Op.move Cmd.turnRight 1, Op.move Cmd.forward d, Op.move Cmd.turnRight 1]
  else
    [Op.move Cmd.turnLeft 1, Op.move Cmd.forward d, Op.move Cmd.turnLeft 1]

/-- Body of the inner loop of `explore_grid` (lines 212-232) at grid point
`(row, col)`: sample, then move forward unless at the end of the row, and
at the end of a non-final row run the row-end maneuver. -/
def cell_ops (n d row col : ℕ) : List Op :=
  Op.sample ::
    (if col < n - 1 then [Op.move Cmd.forward d]
     else if row < n - 1 then row_end_ops row d
     else [])

/-- The full script of `explore_grid(grid_size = n, step_distance = d)`
(no cancellation: `is_exploring` stays true for the whole run). -/
def explore_ops (n d : ℕ) : List Op :=
  ((List.range n).map
    (fun row => ((List.range n).map (cell_ops n d row)).flatten)).flatten

/-! ## Running-maximum record (radiation_bot.py lines 138-139, 192-194) -/

/-- The `max_radiation` / `max_radiation_pos` fields of `RadiationBot`. -/
structure MaxRecord where
  max_radiation : ℝ
  max_radiation_pos : ℝ × ℝ

/-- The MaxRecord update of `collect_radiation_sample` (lines 192-194):
replace the record exactly when the new average reading strictly exceeds
the stored maximum. -/
noncomputable def update_max (m : MaxRecord) (avg_reading : ℝ) (pos : ℝ × ℝ) :
    MaxRecord :=
  if m.max_radiation < avg_reading then ⟨avg_reading, pos⟩ else m

/-! ## Helper lemmas about the sensor -/

lemma foldl_pulse_fields (ts : List ℚ) (s : SensorState) :
    (ts.foldl pulse_callback s).start_time = s.start_time ∧
      (ts.foldl pulse_callback s).last_reading = s.last_reading := by
  induction ts generalizing s with
  | nil => exact ⟨rfl, rfl⟩
  | cons t ts ih => exact ih (pulse_callback s t)

lemma get_reading_nonneg (s : SensorState) (t : ℚ) (h : 0 ≤ s.last_reading) :
    0 ≤ (get_reading s t).1 ∧ 0 ≤ (get_reading s t).2.last_reading := by
  simp only [get_reading]
  split_ifs with hc hp
  · have h60 : (0 : ℚ) ≤ (s.pulse_count : ℚ) / (t - s.start_time) * 60 := by
      positivity
    constructor <;> positivity
  · constructor <;> positivity
  · exact ⟨h, h⟩

lemma reachable_last_reading_nonneg {s : SensorState} (h : Reachable s) :
    0 ≤ s.last_reading := by
  induction h with
  | init t0 => exact le_rfl
  | pulse t _ ih => exact ih
  | reading t _ ih => exact (get_reading_nonneg _ _ ih).2

lemma get_reading_stale {s : SensorState} {t : ℚ}
    (h : ¬ reading_interval ≤ t - s.start_time) :
    get_reading s t = (s.last_reading, s) := by
  simp [get_reading, h]

/-! ## Claims about the sensor -/

/-- C3 counterexample: with pulse history `[100]`, the newest recorded
timestamp is `100`; invoking the pulse callback again with the duplicate
timestamp `100` (not strictly later) changes the pulse history from
`[100]` to `[100, 100]`, so the call is not a no-op. -/
theorem C3_counterexample :
    (pulse_callback (init_sensor 0) 100).pulse_buffer = [100] ∧
    ¬ (100 : ℚ) < 100 ∧
    (pulse_callback (pulse_callback (init_sensor 0) 100) 100).pulse_buffer ≠
      (pulse_callback (init_sensor 0) 100).pulse_buffer := by
  have h1 : (pulse_callback (init_sensor 0) 100).pulse_buffer = [100] := by
    norm_num [pulse_callback, init_sensor]
  have h2 : (pulse_callback (pulse_callback (init_sensor 0) 100) 100).pulse_buffer
      = [100, 100] := by
    norm_num [pulse_callback, init_sensor]
  refine ⟨h1, by norm_num, ?_⟩
  rw [h1, h2]
  simp

/-- C3 (amended): the pulse callback never fails and is total, but it is
not a no-op on late or duplicate timestamps: it unconditionally increments
the pulse count and appends the given timestamp, and the retained history
is exactly the former entries and the new timestamp that are strictly
newer than `timestamp - 60`. -/
theorem C3_record_pulse_amended (s : SensorState) (t : ℚ) :
    (pulse_callback s t).pulse_count = s.pulse_count + 1 ∧
    t ∈ (pulse_callback s t).pulse_buffer ∧
    (∀ u : ℚ, u ∈ (pulse_callback s t).pulse_buffer ↔
      ((u ∈ s.pulse_buffer ∨ u = t) ∧ t - 60 < u)) := by
  refine ⟨rfl, ?_, fun u => ?_⟩
  · have ht : t - 60 < t := by linarith
    simp [pulse_callback, ht]
  · simp only [pulse_callback, List.mem_filter, List.mem_append,
      List.mem_singleton, decide_eq_true_eq]

/-- C3 witness: concrete instance of the amended behaviour. -/
theorem C3_witness :
    (100 : ℚ) ∈ (pulse_callback (init_sensor 0) 100).pulse_buffer :=
  (C3_record_pulse_amended (init_sensor 0) 100).2.1

/-- C5: two readings taken strictly inside the same reading interval, with
no pulses recorded in between, return the identical stale value and leave
the sensor state untouched. -/
theorem C5_rate_idempotent (s : SensorState) (t1 t2 : ℚ)
    (h1 : t1 - s.start_time < reading_interval)
    (h2 : t2 - s.start_time < reading_interval) :
    (get_reading s t1).1 = s.last_reading ∧
    (get_reading s t1).2 = s ∧
    (get_reading (get_reading s t1).2 t2).1 = (get_reading s t1).1 := by
  have hn1 : ¬ reading_interval ≤ t1 - s.start_time := not_le.mpr h1
  have hn2 : ¬ reading_interval ≤ t2 - s.start_time := not_le.mpr h2
  rw [get_reading_stale hn1]
  refine ⟨rfl, rfl, ?_⟩
  show (get_reading s t2).1 = s.last_reading
  rw [get_reading_stale hn2]

/-- C5 witness: two reads at times 1 and 2 on a fresh sensor. -/
theorem C5_witness :
    ((1 : ℚ) - (init_sensor 0).start_time < reading_interval ∧
     (2 : ℚ) - (init_sensor 0).start_time < reading_interval) ∧
    ((get_reading (init_sensor 0) 1).1 = (init_sensor 0).last_reading ∧
     (get_reading (init_sensor 0) 1).2 = init_sensor 0 ∧
     (get_reading (get_reading (init_sensor 0) 1).2 2).1 =
       (get_reading (init_sensor 0) 1).1) :=
  ⟨⟨by norm_num [init_sensor, reading_interval],
    by norm_num [init_sensor, reading_interval]⟩,
   C5_rate_idempotent (init_sensor 0) 1 2
     (by norm_num [init_sensor, reading_interval])
     (by norm_num [init_sensor, reading_interval])⟩

/-- C7: the dose-rate conversion is exactly the guarded formula with tube
sensitivity 65, it is non-negative for every input, and the CPM returned
by `get_reading` is non-negative in every reachable sensor state. -/
theorem C7_dose_rate :
    (∀ cpm : ℚ, convert_to_microsieverts cpm =
      if cpm ≤ 0 then 0 else cpm / 60 / 65 * 0.036 * 3600) ∧
    (∀ cpm : ℚ, 0 ≤ convert_to_microsieverts cpm) ∧
    (∀ s : SensorState, Reachable s → ∀ t : ℚ, 0 ≤ (get_reading s t).1) := by
  refine ⟨fun cpm => rfl, fun cpm => ?_, fun s hs t => ?_⟩
  · unfold convert_to_microsieverts
    split_ifs with h
    · exact le_rfl
    · have hpos : 0 < cpm := not_le.mp h
      positivity
  · exact (get_reading_nonneg s t (reachable_last_reading_nonneg hs)).1

/-- C7 witness: the freshly constructed sensor is reachable and its
reading is non-negative; the conversion is non-negative at `-3`. -/
theorem C7_witness :
    Reachable (init_sensor 0) ∧
    0 ≤ (get_reading (init_sensor 0) 7).1 ∧
    0 ≤ convert_to_microsieverts (-3) :=
  ⟨Reachable.init 0,
   C7_dose_rate.2.2 (init_sensor 0) (Reachable.init 0) 7,
   C7_dose_rate.2.1 (-3)⟩

/-- C10: before the first reading interval has elapsed, `get_reading`
returns the initial stale estimate 0 no matter how many pulses have been
recorded since construction. -/
theorem C10_first_interval_zero (ts : List ℚ) (t0 t : ℚ)
    (h : t - t0 < reading_interval) :
    (get_reading (ts.foldl pulse_callback (init_sensor t0)) t).1 = 0 := by
  obtain ⟨hst, hlr⟩ := foldl_pulse_fields ts (init_sensor t0)
  have hn : ¬ reading_interval ≤
      t - (ts.foldl pulse_callback (init_sensor t0)).start_time := by
    rw [hst]
    exact not_le.mpr h
  simp only [get_reading, if_neg hn]
  exact hlr

/-- C10 witness: four pulses in the first three seconds, read at time 3. -/
theorem C10_witness :
    ((3 : ℚ) - 0 < reading_interval) ∧
    (get_reading ([1, 2, 2, 3].foldl pulse_callback (init_sensor 0)) 3).1 = 0 :=
  ⟨by norm_num [reading_interval],
   C10_first_interval_zero [1, 2, 2, 3] 0 3 (by norm_num [reading_interval])⟩

/-! ## Claims about the tracker and the running maximum -/

/-- C9: after any single `update_position` call, for every starting pose,
command and step count, the heading lies in the interval `[0, 360)`. -/
theorem C9_heading_normalized (p : Pose) (c : Cmd) (steps : ℕ) :
    0 ≤ (update_position p c steps).heading ∧
      (update_position p c steps).heading < 360 := by
  cases c <;> exact ⟨pymod360_nonneg _, pymod360_lt_360 _⟩

/-- C6: a `turn left` by 8 steps (8 x 45 = 360 degrees) fixes the pose,
and for every step count `n` a `forward` by `n` followed by a `backward`
by `n` restores position and heading exactly (real arithmetic), provided
the starting heading is normalized. -/
theorem C6_pose_roundtrip (p : Pose) (n : ℕ)
    (h0 : 0 ≤ p.heading) (h1 : p.heading < 360) :
    update_position p Cmd.turnLeft 8 = ⟨p.x, p.y, p.heading⟩ ∧
    update_position (update_position p Cmd.forward n) Cmd.backward n =
      ⟨p.x, p.y, p.heading⟩ := by
  have hpm : pymod360 p.heading = p.heading := pymod360_eq_self h0 h1
  constructor
  · show (⟨p.x, p.y, pymod360 (p.heading + 45 * ((8 : ℕ) : ℝ))⟩ : Pose) =
      ⟨p.x, p.y, p.heading⟩
    have e2 : pymod360 (p.heading + 45 * ((8 : ℕ) : ℝ)) = p.heading := by
      have e : p.heading + 45 * ((8 : ℕ) : ℝ) = p.heading + 360 := by
        push_cast; ring
      rw [e, pymod360_add_360, hpm]
    rw [e2]
  · have hq : update_position p Cmd.forward n =
        ⟨p.x + (n : ℝ) * step_size * Real.cos (radians p.heading),
         p.y + (n : ℝ) * step_size * Real.sin (radians p.heading),
         p.heading⟩ := by
      show (⟨p.x + (n : ℝ) * step_size * Real.cos (radians p.heading),
             p.y + (n : ℝ) * step_size * Real.sin (radians p.heading),
             pymod360 p.heading⟩ : Pose) = _
      rw [hpm]
    rw [hq]
    show (⟨p.x + (n : ℝ) * step_size * Real.cos (radians p.heading) -
             (n : ℝ) * step_size * Real.cos (radians p.heading),
           p.y + (n : ℝ) * step_size * Real.sin (radians p.heading) -
             (n : ℝ) * step_size * Real.sin (radians p.heading),
           pymod360 p.heading⟩ : Pose) = ⟨p.x, p.y, p.heading⟩
    rw [hpm,
      show p.x + (n : ℝ) * step_size * Real.cos (radians p.heading) -
          (n : ℝ) * step_size * Real.cos (radians p.heading) = p.x from by ring,
      show p.y + (n : ℝ) * step_size * Real.sin (radians p.heading) -
          (n : ℝ) * step_size * Real.sin (radians p.heading) = p.y from by ring]

/-- C6 witness: the round trips at the origin pose with 3 forward steps. -/
theorem C6_witness :
    ((0 : ℝ) ≤ 0 ∧ (0 : ℝ) < 360) ∧
    (update_position ⟨0, 0, 0⟩ Cmd.turnLeft 8 = ⟨0, 0, 0⟩ ∧
     update_position (update_position ⟨0, 0, 0⟩ Cmd.forward 3) Cmd.backward 3 =
       ⟨0, 0, 0⟩) :=
  ⟨⟨le_rfl, by norm_num⟩,
   C6_pose_roundtrip ⟨0, 0, 0⟩ 3 le_rfl (by norm_num)⟩

/-- C8: the MaxRecord update replaces the record exactly when the new
CPM strictly exceeds the stored maximum, and folding the update over the
CPM sequence [10, 5, 30, 8] at arbitrary poses from the initial record
yields maximum 30 at the pose of the 30-CPM sample. -/
theorem C8_max_record :
    (∀ (m : MaxRecord) (c : ℝ) (pos : ℝ × ℝ),
      (m.max_radiation < c → update_max m c pos = ⟨c, pos⟩) ∧
      (c ≤ m.max_radiation → update_max m c pos = m) ∧
      ((update_max m c pos).max_radiation ≠ m.max_radiation ↔
        m.max_radiation < c)) ∧
    (∀ p1 p2 p3 p4 : ℝ × ℝ,
      List.foldl (fun m cp => update_max m cp.1 cp.2) ⟨0, (0, 0)⟩
        [((10 : ℝ), p1), (5, p2), (30, p3), (8, p4)] = ⟨30, p3⟩) := by
  constructor
  · intro m c pos
    refine ⟨fun h => if_pos h, fun h => if_neg (not_lt.mpr h), ?_, ?_⟩
    · intro hne
      by_contra hnot
      exact hne (by rw [update_max, if_neg hnot])
    · intro hlt
      rw [update_max, if_pos hlt]
      exact hlt.ne'
  · intro p1 p2 p3 p4
    norm_num [List.foldl, update_max]

/-- C8 witness: a strictly larger CPM replaces the record. -/
theorem C8_witness :
    ((0 : ℝ) < 5) ∧ update_max ⟨0, (0, 0)⟩ 5 (1, 2) = ⟨5, (1, 2)⟩ :=
  ⟨by norm_num,
   (C8_max_record.1 ⟨0, (0, 0)⟩ 5 (1, 2)).1 (by norm_num)⟩

/-! ## Claims about the movement scripts -/

/-- C1: evaluating the probing phase of a `find_radiation_source`
iteration from pose `(0, 0)` heading `0`: exactly one probe sample is
taken (not four), and the final pose is `(0, 0)` heading `180` — the
position is restored but the heading has rotated by four 45-degree right
turns with no rotate-back, so the pose is not restored. -/
theorem C1_probe_phase_eval :
    (samplePoses ⟨0, 0, 0⟩ probe_phase).length = 1 ∧
    runPose ⟨0, 0, 0⟩ probe_phase = ⟨0, 0, 180⟩ := by
  have e0 : radians 0 = 0 := by simp [radians]
  constructor
  · simp [probe_phase, directions, dir_ops, samplePoses]
  · simp only [probe_phase, directions, dir_ops, List.map, List.flatten,
      List.append, runPose, update_position]
    norm_num [e0, pymod360_zero, pymod360_neg45, pymod360_315, pymod360_270,
      pymod360_225, pymod360_180, step_size, Pose.mk.injEq]

/-- C2: evaluating `explore_grid` on a 3x3 grid with step distance 2 from
pose `(0, 0)` heading `0`: exactly 9 samples are collected, but the
headings at the 9 samples are `[0, 0, 0, 270, 270, 270, 0, 0, 0]` — the
row-end turns are 45 degrees each (one 1-step turn), so the second row is
traversed at heading 270 instead of the 180 a serpentine grid requires,
and the sample poses are not the 3x3 grid cells. -/
theorem C2_explore_grid_eval :
    (samplePoses ⟨0, 0, 0⟩ (explore_ops 3 2)).length = 9 ∧
    (samplePoses ⟨0, 0, 0⟩ (explore_ops 3 2)).map Pose.heading =
      [0, 0, 0, 270, 270, 270, 0, 0, 0] := by
  have he : explore_ops 3 2 =
      [Op.sample, Op.move Cmd.forward 2, Op.sample, Op.move Cmd.forward 2,
       Op.sample, Op.move Cmd.turnRight 1, Op.move Cmd.forward 2,
       Op.move Cmd.turnRight 1,
       Op.sample, Op.move Cmd.forward 2, Op.sample, Op.move Cmd.forward 2,
       Op.sample, Op.move Cmd.turnLeft 1, Op.move Cmd.forward 2,
       Op.move Cmd.turnLeft 1,
       Op.sample, Op.move Cmd.forward 2, Op.sample, Op.move Cmd.forward 2,
       Op.sample] := rfl
  rw [he]
  constructor
  · simp [samplePoses]
  · simp only [samplePoses, update_position, List.map]
    norm_num [pymod360_zero, pymod360_neg45, pymod360_315, pymod360_270,
      pymod360_360, step_size, Pose.mk.injEq]

end RadBot
